import Mathlib

/-!
# EVOLVIA tutoring-session core: a shallow embedding

Lean embedding of the session orchestration layer of the EVOLVIA backend:

* `LearnSession` and its transition methods
  (backend/app/services/learn_session.py),
* the sticky language detector `detect_language`
  (backend/app/services/learn_llm.py, `LearnLLMService._detect_language`),
* the board-action decoding stage of the turn-response parser
  (backend/app/services/learn_llm.py, `LearnLLMService._parse_response`),
* the voice-activity pipeline (backend/app/services/voice_manager.py),
* the websocket gateway's per-message handling and receive loop
  (backend/app/api/learn.py).

Python exceptions are modelled with `Except PyErr`; a method that raises and
leaves the object untouched is a function returning `.error` while the caller
keeps the unchanged state.  External collaborators (the language model, speech
synthesis, transcription, title generation) are oracle parameters: their
results are inputs to the embedded functions.  Machine integers are `Int`/`Nat`
(Python integers are unbounded, so no wraparound is modelled), and wall-clock
timestamps (`created_at`, `last_activity`) are omitted.
-/

/-- The Python exception classes that matter to the embedded code paths.
`jsonDecodeError` subclasses `ValueError` in Python, which `is_value_error`
reflects. -/
inductive PyErr
  | valueError (msg : String)
  | keyError (msg : String)
  | attributeError (msg : String)
  | typeError (msg : String)
  | jsonDecodeError (msg : String)
deriving DecidableEq, Repr

/-- `except ValueError` also catches `json.JSONDecodeError` (a subclass). -/
def is_value_error : PyErr → Bool
  | .valueError _ => true
  | .jsonDecodeError _ => true
  | _ => false

def is_key_error : PyErr → Bool
  | .keyError _ => true
  | _ => false

/-- A decoded JSON value, as `json.loads` produces it (Python `None`, `bool`,
`int`, `str`, `list`, `dict`).  Floats are outside the model: none of the
inputs analysed here contain one. -/
inductive JValue
  | jnull
  | jbool (b : Bool)
  | jnum (n : Int)
  | jstr (s : String)
  | jarr (items : List JValue)
  | jobj (fields : List (String × JValue))

/-- Python truthiness of a decoded JSON value. -/
def JValue.truthy : JValue → Bool
  | .jnull => false
  | .jbool b => b
  | .jnum n => n != 0
  | .jstr s => !(s == "")
  | .jarr items => !items.isEmpty
  | .jobj fields => !fields.isEmpty

/-- `d.get(k)` on a decoded JSON dict: the first binding of `k`, else Python
`None` (`jnull`).  `json.loads` keeps the last duplicate key, but its output
never repeats a key, so first-binding lookup is exact here. -/
def JValue.getKey : JValue → String → JValue
  | .jobj fields, k =>
    match fields.find? (fun f => f.1 == k) with
    | some f => f.2
    | none => .jnull
  | _, _ => .jnull

/-- Whether a decoded JSON dict has the key `k` (`k in d` for a dict). -/
def JValue.hasKey : JValue → String → Bool
  | .jobj fields, k => fields.any (fun f => f.1 == k)
  | _, _ => false

/-- Python `a or b`. -/
def py_or (a b : JValue) : JValue :=
  if a.truthy then a else b

/-- `v == s` for a Python string literal `s`: values of other types compare
unequal. -/
def JValue.eqStr : JValue → String → Bool
  | .jstr t, s => t == s
  | _, _ => false

/-- The `BoardActionKind` enum (backend/app/schemas/learn.py).  The schema file
of the newer backend tree is not staged; `SHOW_FLASHCARDS` is modelled from the
spec's closed action-kind set (the gateway pattern-matches on it). -/
inductive BoardActionKind
  | WRITE_BULLET
  | WRITE_TITLE
  | WRITE_STEP
  | CLEAR
  | HIGHLIGHT
  | DRAW_DIAGRAM
  | SHOW_IMAGE
  | SHOW_QUIZ
  | SHOW_FLASHCARDS
  | SHOW_REWARD
deriving DecidableEq, Repr

/-- `BoardActionKind(s)`: the enum member whose value is `s`, else `ValueError`. -/
def boardActionKindOfString : String → Option BoardActionKind
  | "WRITE_BULLET" => some .WRITE_BULLET
  | "WRITE_TITLE" => some .WRITE_TITLE
  | "WRITE_STEP" => some .WRITE_STEP
  | "CLEAR" => some .CLEAR
  | "HIGHLIGHT" => some .HIGHLIGHT
  | "DRAW_DIAGRAM" => some .DRAW_DIAGRAM
  | "SHOW_IMAGE" => some .SHOW_IMAGE
  | "SHOW_QUIZ" => some .SHOW_QUIZ
  | "SHOW_FLASHCARDS" => some .SHOW_FLASHCARDS
  | "SHOW_REWARD" => some .SHOW_REWARD
  | _ => none

/-- `BoardAction` (backend/app/schemas/learn.py): a kind plus a free-form
payload dict. -/
structure BoardAction where
  kind : BoardActionKind
  payload : JValue

/-- The `SessionStatus` enum (backend/app/schemas/learn.py). -/
inductive SessionStatus
  | TEACHING
  | PAUSED
  | ANSWERING
  | RESUMING
  | IDLE
deriving DecidableEq, Repr

/-- `LearnSession` (backend/app/services/learn_session.py).  Timestamps and the
exam fields that no embedded operation touches are omitted; `quizzes` and
`flashcards` are the artifact lists the gateway appends to (their declaration
lives in the unstaged newer copy of learn_session.py; the spec documents them
as append-only artifact lists). -/
structure LearnSession where
  session_id : String
  lesson_id : String
  user_id : Option String
  language : String
  status : SessionStatus
  step_id : Nat
  interruption_count : Nat
  difficulty_level : Int
  checkpoint_summary : Option String
  checkpoints : List (Nat × String)
  history : List (String × String)
  custom_title : Option String
  quizzes : List JValue
  flashcards : List JValue

/-- `LearnSession.__init__`. -/
def mkLearnSession (session_id lesson_id : String) (user_id : Option String)
    (initial_difficulty : Int) (language : String) : LearnSession :=
  { session_id := session_id
    lesson_id := lesson_id
    user_id := user_id
    language := language
    status := .IDLE
    step_id := 0
    interruption_count := 0
    difficulty_level := initial_difficulty
    checkpoint_summary := none
    checkpoints := []
    history := []
    custom_title := none
    quizzes := []
    flashcards := [] }

/-- `LearnSession.start`: allowed from IDLE or ANSWERING, else raises
`ValueError` (the spec's `InvalidTransition`). -/
def LearnSession.start (s : LearnSession) : Except PyErr LearnSession :=
  if s.status = .IDLE ∨ s.status = .ANSWERING then
    .ok { s with status := .TEACHING, step_id := 0, interruption_count := 0 }
  else
    .error (.valueError "Cannot start from state")

/-- `LearnSession.pause`: total.  When already PAUSED only the interruption
count moves; otherwise the status becomes PAUSED, the count moves, and on a
repeated interruption the difficulty drops by one (floored at 1). -/
def LearnSession.pause (s : LearnSession) : LearnSession :=
  if s.status = .PAUSED then
    { s with interruption_count := s.interruption_count + 1 }
  else
    let s1 := { s with status := SessionStatus.PAUSED,
                       interruption_count := s.interruption_count + 1 }
    if s1.interruption_count > 1 ∧ s1.difficulty_level > 1 then
      { s1 with difficulty_level := s1.difficulty_level - 1 }
    else
      s1

/-- `LearnSession.set_difficulty`: in-range levels are stored, others are a
no-op. -/
def LearnSession.set_difficulty (s : LearnSession) (level : Int) : LearnSession :=
  if 1 ≤ level ∧ level ≤ 5 then { s with difficulty_level := level } else s

/-- `LearnSession.resume`: only from PAUSED, else raises `ValueError`. -/
def LearnSession.resume (s : LearnSession) : Except PyErr LearnSession :=
  if s.status = .PAUSED then
    .ok { s with status := .RESUMING }
  else
    .error (.valueError "Cannot resume from state")

/-- `LearnSession.continue_teaching`: only from RESUMING or ANSWERING, else
raises `ValueError`. -/
def LearnSession.continue_teaching (s : LearnSession) : Except PyErr LearnSession :=
  if s.status = .RESUMING ∨ s.status = .ANSWERING then
    .ok { s with status := .TEACHING }
  else
    .error (.valueError "Cannot continue from state")

/-- `LearnSession.wait_for_answer`: unconditional. -/
def LearnSession.wait_for_answer (s : LearnSession) : LearnSession :=
  { s with status := .ANSWERING }

/-- `LearnSession.next_step`. -/
def LearnSession.next_step (s : LearnSession) : LearnSession :=
  { s with step_id := s.step_id + 1 }

/-- `LearnSession.set_checkpoint`: appends `(step_id, summary)` and records the
summary. -/
def LearnSession.set_checkpoint (s : LearnSession) (summary : String) : LearnSession :=
  { s with checkpoint_summary := some summary
           checkpoints := s.checkpoints ++ [(s.step_id, summary)] }

/-- `LearnSession.add_history`: appends the entry, then pops the oldest entry
when the length exceeds 100 (the in-memory bound in the code; its docstring
still says 10). -/
def LearnSession.add_history (s : LearnSession) (role content : String) : LearnSession :=
  let h := s.history ++ [(role, content)]
  { s with history := if h.length > 100 then h.tail else h }

/-- The operations of the session lifecycle (the methods of `LearnSession` the
gateway drives).  A fallible method that raises leaves the Python object
unchanged, which `applyOp` reflects by returning the state unmodified. -/
inductive Op
  | startOp
  | pauseOp
  | resumeOp
  | continueTeachingOp
  | waitForAnswerOp
  | nextStepOp
  | setDifficultyOp (level : Int)
  | setCheckpointOp (summary : String)
  | addHistoryOp (role content : String)
deriving DecidableEq, Repr

/-- One method call; a raised `ValueError` leaves the session as it was. -/
def applyOp (s : LearnSession) : Op → LearnSession
  | .startOp => match s.start with | .ok t => t | .error _ => s
  | .pauseOp => s.pause
  | .resumeOp => match s.resume with | .ok t => t | .error _ => s
  | .continueTeachingOp => match s.continue_teaching with | .ok t => t | .error _ => s
  | .waitForAnswerOp => s.wait_for_answer
  | .nextStepOp => s.next_step
  | .setDifficultyOp level => s.set_difficulty level
  | .setCheckpointOp summary => s.set_checkpoint summary
  | .addHistoryOp role content => s.add_history role content

/-- A sequence of method calls. -/
def runOps (s : LearnSession) (ops : List Op) : LearnSession :=
  ops.foldl applyOp s

/-- ASCII lowering, the fragment of Python `str.lower` the detector's inputs
exercise (the stop-word alphabets are lowercase ASCII, Arabic letters are
uncased). -/
def pyLowerChar (c : Char) : Char :=
  if 'A' ≤ c ∧ c ≤ 'Z' then Char.ofNat (c.toNat + 32) else c

def pyLower (s : String) : String :=
  String.mk (s.data.map pyLowerChar)

/-- ASCII raising, the fragment of Python `str.upper` the parser exercises. -/
def pyUpperChar (c : Char) : Char :=
  if 'a' ≤ c ∧ c ≤ 'z' then Char.ofNat (c.toNat - 32) else c

def pyUpper (s : String) : String :=
  String.mk (s.data.map pyUpperChar)

/-- Substring test on character lists (Python `needle in haystack`). -/
def containsSubList (needle : List Char) : List Char → Bool
  | [] => needle.isEmpty
  | c :: rest => needle.isPrefixOf (c :: rest) || containsSubList needle rest

/-- Python `needle in s` for strings. -/
def containsSub (needle s : String) : Bool :=
  containsSubList needle.data s.data

/-- Python `\s` on the ASCII range (enough for the texts modelled here). -/
def pyIsSpace (c : Char) : Bool :=
  c == ' ' || c == '\t' || c == '\n' || c == '\r' || c == '\x0b' || c == '\x0c'

/-- Splitting on a character class, dropping empty pieces: the common core of
`str.split()` and `re.split(r'[\s\-]+', ...)` once empties are filtered. -/
def splitDropAux (sep : Char → Bool) (cur : List Char) (acc : List String) :
    List Char → List String
  | [] => if cur.isEmpty then acc else acc ++ [String.mk cur]
  | c :: rest =>
    if sep c then
      if cur.isEmpty then splitDropAux sep [] acc rest
      else splitDropAux sep [] (acc ++ [String.mk cur]) rest
    else
      splitDropAux sep (cur ++ [c]) acc rest

/-- Python `text.split()` (whitespace split, no empty pieces). -/
def pySplitWhitespace (s : String) : List String :=
  splitDropAux pyIsSpace [] [] s.data

/-- `re.split(r'[\s\-]+', text)` with the empty pieces dropped (the caller
filters them with `if clean_t:`). -/
def splitTokens (s : String) : List String :=
  splitDropAux (fun c => pyIsSpace c || c == '-') [] [] s.data

/-- `t.rstrip("?!.,:;")`. -/
def rstripPunct (t : String) : String :=
  String.mk ((t.data.reverse.dropWhile fun c =>
    c == '?' || c == '!' || c == '.' || c == ',' || c == ':' || c == ';').reverse)

/-- The English stop-word set of `_detect_language` (learn_llm.py). -/
def eng_stops : List String :=
  ["the", "is", "to", "and", "a", "of", "in", "what", "how", "why",
   "correct", "question", "answer", "it", "that", "you", "my", "your",
   "are", "was", "were", "will", "can", "do", "does", "did", "please",
   "what's", "it's", "i'm", "don't"]

/-- The French stop-word set of `_detect_language`. -/
def fr_stops : List String :=
  ["le", "la", "de", "et", "un", "une", "est", "à", "quoi", "comment",
   "pourquoi", "reponse", "question", "je", "tu", "il", "elle", "nous",
   "vous", "ils", "elles", "mon", "ton", "son", "ce", "cette", "svp", "pardon",
   "c'est", "j'ai", "qu'est", "oui", "non", "merci", "y", "en", "vas", "allez", "va",
   "bonjour", "salut"]

/-- The Spanish stop-word set of `_detect_language`. -/
def es_stops : List String :=
  ["el", "la", "lo", "de", "que", "en", "y", "a", "no", "si", "mi", "tu",
   "su", "por", "con", "para", "como", "esta", "este", "eso", "esa", "del",
   "al", "quiero", "aprender", "hola"]

/-- The Arabic stop-word set of `_detect_language`. -/
def ar_stops : List String :=
  ["اللغة", "تعلم", "أريد", "مرحبا", "كيف", "هذا", "ماذا", "هل", "أنا",
   "أنت", "على", "في", "من", "إلى", "عن", "مع", "كان", "ليس", "شكرا"]

/-- `re.search(r'[؀-ۿ]', text)`: an Arabic-range character. -/
def has_arabic (text : String) : Bool :=
  text.data.any fun c => Nat.ble 0x600 c.toNat && Nat.ble c.toNat 0x6FF

/-- The explicit keyword override of `_detect_language`:
`"english" in text_lower or "anglais" in text_lower`. -/
def keyword_override (text : String) : Bool :=
  containsSub "english" (pyLower text) || containsSub "anglais" (pyLower text)

/-- The de-duplicated cleaned token set (`clean_tokens` in `_detect_language`):
split on whitespace/hyphen, strip trailing punctuation, drop empties.  A list
with distinct members stands in for the Python set; only membership is used. -/
def clean_tokens (text : String) : List String :=
  (splitTokens (pyLower text)).foldl
    (fun acc t =>
      let ct := rstripPunct t
      if ct = "" then acc
      else if acc.contains ct then acc
      else acc ++ [ct])
    []

/-- `len(clean_tokens.intersection(stops))`: the stop lists repeat no word, so
counting the stops present among the tokens is the intersection size. -/
def count_matches (stops toks : List String) : Nat :=
  (stops.filter fun w => toks.contains w).length

/-- Python `max(counts, key=counts.get)` over the dict built in insertion order
english, french, spanish, arabic: the first key attaining the maximum wins. -/
def argmax_lang (e f s a : Nat) : String × Nat :=
  let best := ("english", e)
  let best := if f > best.2 then ("french", f) else best
  let best := if s > best.2 then ("spanish", s) else best
  if a > best.2 then ("arabic", a) else best

/-- The viscosity tail of `_detect_language` (learn_llm.py lines 582-598):
stick to the context language on a weak or empty signal, else keep the
detected winner ("english" when nothing matched and no context applies). -/
def apply_viscosity (detected : String) (max_score : Nat)
    (context_language : Option String) : String :=
  let sticky : Option String :=
    match context_language with
    | some ctx =>
      if ctx = "english" ∨ ctx = "french" ∨ ctx = "spanish" ∨ ctx = "arabic" then
        if max_score > 0 ∧ detected ≠ ctx then
          if max_score < 3 then some ctx else none
        else if max_score = 0 then some ctx
        else none
      else none
    | none => none
  match sticky with
  | some lang => lang
  | none => if max_score = 0 then "english" else detected

/-- `LearnLLMService._detect_language` (learn_llm.py lines 512-598). -/
def detect_language (text : String) (context_language : Option String) : String :=
  if keyword_override text then "english"
  else if has_arabic text then "arabic"
  else
    let toks := clean_tokens text
    let e := count_matches eng_stops toks
    let f := count_matches fr_stops toks
    let sp := count_matches es_stops toks
    let ar := count_matches ar_stops toks
    let dm := argmax_lang e f sp ar
    apply_viscosity dm.1 dm.2 context_language

/-- One 30 ms PCM frame as the VAD classifies it: `vadSpeech` is the verdict of
`webrtcvad.Vad.is_speech` (an external collaborator), `fid` identifies the
frame's bytes. -/
structure Frame where
  fid : Nat
  vadSpeech : Bool
deriving DecidableEq, Repr

/-- `VoiceManager` (voice_manager.py): the per-connection recording state.
The byte-level `audio_buffer` splicing is dropped by feeding whole frames; the
recorded bytes become the list of recorded frames. -/
structure VoiceManager where
  is_recording : Bool
  silence_frames : Nat
  recorded_audio : List Frame
  auto_finish : Bool
  has_vad : Bool
deriving DecidableEq, Repr

/-- `self.max_silence_frames = 10  # ~300ms`. -/
def max_silence_frames : Nat := 10

/-- `VoiceManager.__init__` with webrtcvad installed. -/
def vmInit : VoiceManager :=
  { is_recording := false
    silence_frames := 0
    recorded_audio := []
    auto_finish := true
    has_vad := true }

/-- The body of the frame loop of `VoiceManager.add_audio_chunk`
(voice_manager.py lines 56-97) for one complete frame.  `some frames` is a
call of `_process_recorded_speech` on the recorded buffer (the transcription
trigger); the transcribed text itself comes from the STT collaborator. -/
def add_frame (vm : VoiceManager) (f : Frame) : VoiceManager × Option (List Frame) :=
  let is_speech := if vm.has_vad then f.vadSpeech else vm.is_recording
  if is_speech then
    let vm :=
      if ¬vm.is_recording ∧ vm.has_vad then
        { vm with is_recording := true, recorded_audio := [] }
      else vm
    if vm.is_recording then
      ({ vm with recorded_audio := vm.recorded_audio ++ [f], silence_frames := 0 }, none)
    else
      (vm, none)
  else
    if vm.is_recording then
      let vm :=
        if ¬vm.auto_finish then
          { vm with recorded_audio := vm.recorded_audio ++ [f] }
        else
          { vm with recorded_audio := vm.recorded_audio ++ [f],
                    silence_frames := vm.silence_frames + 1 }
      if vm.silence_frames ≥ max_silence_frames then
        if vm.auto_finish then
          ({ vm with is_recording := false }, some vm.recorded_audio)
        else
          (vm, none)
      else
        (vm, none)
    else
      (vm, none)

/-- Feeding a sequence of frames, one `add_audio_chunk` call per frame,
collecting every transcription trigger in order. -/
def run_frames (vm : VoiceManager) : List Frame → VoiceManager × List (List Frame)
  | [] => (vm, [])
  | f :: rest =>
    let step := add_frame vm f
    let tail := run_frames step.1 rest
    (tail.1, (match step.2 with | some r => [r] | none => []) ++ tail.2)

/-- An opaque synthesized-audio payload (the bytes `synthesize_response`
returns). -/
def Audio := List Nat
deriving instance DecidableEq, Repr for Audio

/-- `TeacherResponse` as the gateway consumes it (speech text, board actions,
response language, and the quiz marker read by `getattr(response, 'quiz',
False)`). -/
structure TeacherResponse where
  speech_text : String
  board_actions : List BoardAction
  language : String
  quiz : Bool

/-- The outbound events of learn.py, tagged as `_send_event` serializes them.
`statusQuizResult` is the extra broadcast of the `[QUIZ_RESULT:` branch (its
float `progress` field is outside the model); `statusMsg` is the titling
broadcast; `statusBare` carries only a status (the resume branch's TEACHING
event); `audioBytes` is the raw binary payload sent by `send_bytes`. -/
inductive OutEvent
  | statusEv (st : SessionStatus) (difficulty : Int)
  | statusQuizResult (st : SessionStatus) (difficulty : Int)
  | statusMsg (st : SessionStatus) (message : String)
  | statusBare (st : SessionStatus)
  | textDelta (delta : String)
  | boardActionEv (action : BoardAction)
  | textFinal (text : String) (actions : List BoardAction)
  | audioBytes (data : Audio)
  | checkpointEv (step : Nat) (summary : String)
  | errorEv (code msg : String)

/-- The per-turn collaborator results the websocket handler consumes: the
outcome of `generate_teacher_response` (which can raise, e.g. out of
`_parse_response`), the awaited result of the `get_audio` task (`none` when
synthesis failed and the task returned None), and the outcome of the guarded
`generate_title` call (`none` when it failed or returned nothing usable is
folded in by `title_result` being the raw return). -/
structure TurnOracle where
  resp : Except PyErr TeacherResponse
  audio_result : Option Audio
  title_result : Option String

/-- `session.custom_title in ["Session", "Current Session", "New Discussion"]`. -/
def generic_titles : List String := ["Session", "Current Session", "New Discussion"]

/-- `new_title not in ["New Discussion", "Nouvelle Discussion"]`. -/
def rejected_titles : List String := ["New Discussion", "Nouvelle Discussion"]

/-- `event.text[:50] + "..." if len(event.text) > 50 else event.text`. -/
def truncate50 (t : String) : String :=
  if t.length > 50 then String.mk (t.data.take 50) ++ "..." else t

/-- The automatic-titling decision (learn.py lines 828-846): a usable new
title is adopted only when the current title is generic, the response is not a
quiz, and the guarded `generate_title` call produced a non-empty title outside
the rejected defaults. -/
def title_decision (ct : Option String) (quiz : Bool) (t : Option String) :
    Option String :=
  let is_generic :=
    match ct with
    | none => true
    | some t0 => generic_titles.contains t0
  if is_generic && !quiz then
    match t with
    | some tt => if tt ≠ "" ∧ ¬rejected_titles.contains tt then some tt else none
    | none => none
  else none

/-- The artifact persistence of the board-action loop (learn.py lines
803-809): quiz and flashcard payloads are appended to the session's lists as
their actions are streamed. -/
def persist_artifact (s : LearnSession) (a : BoardAction) : LearnSession :=
  if a.kind = .SHOW_QUIZ then { s with quizzes := s.quizzes ++ [a.payload] }
  else if a.kind = .SHOW_FLASHCARDS then { s with flashcards := s.flashcards ++ [a.payload] }
  else s

/-- The `UserMessageEvent` branch of `_handle_websocket_event` (learn.py lines
668-860), as a function of the session, the message text and the collaborator
oracle.  Result: the mutated session, the outbound events sent before either
completion or a raise, and the exception when one escapes the branch. -/
def user_message_body (s : LearnSession) (text : String) (o : TurnOracle) :
    LearnSession × List OutEvent × Option PyErr :=
  let was_paused := s.status = SessionStatus.PAUSED
  let was_teaching := s.status = SessionStatus.TEACHING
  let is_interruption := was_paused ∨ was_teaching
  let s := if is_interruption ∧ ¬was_paused then s.pause else s
  let s := s.wait_for_answer
  let evs := [OutEvent.statusEv .ANSWERING s.difficulty_level,
              OutEvent.statusEv .TEACHING s.difficulty_level]
  let quiz_result := containsSub "[QUIZ_RESULT:" text
  -- handle_quiz_result is a documented no-op; only the status broadcast remains
  let evs := evs ++ if quiz_result then [OutEvent.statusQuizResult s.status s.difficulty_level] else []
  let student_input :=
    if quiz_result then text
    else if is_interruption then
      if was_paused then "[FOLLOW-UP QUESTION after pause] " ++ text
      else "[INTERRUPTION - new question] " ++ text
    else text
  let s := s.add_history "user" student_input
  match o.resp with
  | .error e => (s, evs, some e)  -- generate_teacher_response raised
  | .ok resp =>
    -- audio synthesis starts here as a background task; its result is awaited
    -- below, after the deltas and the board actions
    let evs := evs ++ (pySplitWhitespace resp.speech_text).map
      (fun w => OutEvent.textDelta (w ++ " "))
    let s := resp.board_actions.foldl persist_artifact s
    let evs := evs ++ resp.board_actions.map OutEvent.boardActionEv
    -- audio_data = await audio_task
    let evs := evs ++ [OutEvent.textFinal resp.speech_text resp.board_actions]
    let evs := evs ++ (match o.audio_result with
      | some audio => [OutEvent.audioBytes audio]
      | none => [])
    let titled := title_decision s.custom_title resp.quiz o.title_result
    let evs := evs ++
      (match titled with
       | some t2 => [OutEvent.statusMsg s.status ("Session titled: " ++ t2)]
       | none => [])
    let s :=
      match titled with
      | some t2 => { s with custom_title := some t2 }
      | none => s
    let s := s.add_history "assistant" resp.speech_text
    match s.continue_teaching with
    | .error e => (s, evs, some e)
    | .ok s =>
      let s := s.next_step
      let summary := truncate50 text
      let s := s.set_checkpoint summary
      (s, evs ++ [OutEvent.checkpointEv s.step_id summary], none)

/-- The inbound events `_handle_websocket_event` dispatches on (the
`TOGGLE_VOICE`/`REQUEST_QUIZ` messages are answered inline in the receive loop
and never reach this handler; the quiz/flashcard request branches repeat the
user-message pattern and are not needed by the claims).  A user message
carries the collaborator oracle for its turn. -/
inductive InEvent
  | userMessage (text : String) (o : TurnOracle)
  | interrupt (reason : Option String)
  | resumeEvent
  | changeDifficulty (level : Int)

/-- The dispatch body of `_handle_websocket_event` (learn.py lines 668-1095):
the session after the branch, the events sent, and the exception if one
escaped the branch. -/
def handle_event_body (s : LearnSession) : InEvent → LearnSession × List OutEvent × Option PyErr
  | .userMessage text o => user_message_body s text o
  | .interrupt reason =>
    let r := match reason with | some r => r | none => "User paused"
    let _ := r  -- the reason only reaches the log
    let s := s.pause
    (s, [OutEvent.statusEv .PAUSED s.difficulty_level], none)
  | .resumeEvent =>
    match s.resume with
    | .error e => (s, [], some e)
    | .ok s1 =>
      let evs := [OutEvent.statusEv .RESUMING s1.difficulty_level]
      match s1.continue_teaching with
      | .error e => (s1, evs, some e)
      | .ok s2 => (s2, evs ++ [OutEvent.statusBare .TEACHING], none)
  | .changeDifficulty level =>
    let s := s.set_difficulty level
    (s, [OutEvent.statusEv s.status s.difficulty_level], none)

/-- `_handle_websocket_event` including its enclosing `try/except Exception`
(learn.py lines 667 and 1097-1106): any exception from the branch is converted
into an `INTERNAL_ERROR` event and the handler returns normally. -/
def handle_websocket_event (s : LearnSession) (ev : InEvent) : LearnSession × List OutEvent :=
  match handle_event_body s ev with
  | (s', evs, none) => (s', evs)
  | (s', evs, some _) => (s', evs ++ [OutEvent.errorEv "INTERNAL_ERROR" "Error handling WebSocket event"])

/-- One inbound text message of the receive loop: either its
`json.loads`/pydantic decoding succeeds with an event, or decoding raises.
(Binary audio messages follow the same pattern through `add_audio_chunk`.) -/
inductive InMsg
  | textMsg (decoded : Except PyErr InEvent)

/-- The receive loop of `websocket_endpoint` (learn.py lines 423-584): the
`while True` loop sits inside the `try`, and the `except Exception` handler at
line 575 sits outside it, so a raise that reaches it sends one
`INTERNAL_ERROR` event and ends the loop; the remaining messages are never
read. -/
def ws_loop (s : LearnSession) : List InMsg → LearnSession × List OutEvent
  | [] => (s, [])
  | .textMsg (.error _) :: _ =>
    (s, [OutEvent.errorEv "INTERNAL_ERROR" "WebSocket error"])
  | .textMsg (.ok ev) :: rest =>
    let step := handle_websocket_event s ev
    let tail := ws_loop step.1 rest
    (tail.1, step.2 ++ tail.2)

/-- Deep Python `==` on decoded JSON values (`True == 1` included; dict
comparison ignores order).  Fuel bounds the recursion; every concrete input
evaluated here stays far below it. -/
def py_eq : Nat → JValue → JValue → Bool
  | 0, _, _ => false
  | _ + 1, .jnull, .jnull => true
  | _ + 1, .jbool a, .jbool b => a == b
  | _ + 1, .jbool a, .jnum n => (if a then (1 : Int) else 0) == n
  | _ + 1, .jnum n, .jbool a => n == (if a then (1 : Int) else 0)
  | _ + 1, .jnum a, .jnum b => a == b
  | _ + 1, .jstr a, .jstr b => a == b
  | fuel + 1, .jarr a, .jarr b =>
    a.length == b.length && (a.zip b).all fun p => py_eq fuel p.1 p.2
  | fuel + 1, .jobj a, .jobj b =>
    a.length == b.length && a.all fun f => b.any fun g => f.1 == g.1 && py_eq fuel f.2 g.2
  | _ + 1, _, _ => false

/-- Python `needle in container`: list membership, substring test, dict-key
test; `TypeError` on a non-container or an unhashable dict probe. -/
def py_in_value (fuel : Nat) (needle container : JValue) : Except PyErr Bool :=
  match container with
  | .jarr items => .ok (items.any (py_eq fuel needle))
  | .jstr s =>
    match needle with
    | .jstr t => .ok (containsSub t s)
    | _ => .error (.typeError "in <string> requires string as left operand")
  | .jobj fields =>
    match needle with
    | .jstr t => .ok (fields.any fun f => f.1 == t)
    | .jnum _ => .ok false
    | .jbool _ => .ok false
    | .jnull => .ok false
    | _ => .error (.typeError "unhashable type")
  | _ => .error (.typeError "argument is not iterable")

/-- Python `"k" in v` for a string literal key. -/
def py_contains (fuel : Nat) (k : String) (v : JValue) : Except PyErr Bool :=
  py_in_value fuel (.jstr k) v

/-- Python `v[k]` for a string subscript. -/
def py_getitem_str (v : JValue) (k : String) : Except PyErr JValue :=
  match v with
  | .jobj fields =>
    match fields.find? (fun f => f.1 == k) with
    | some f => .ok f.2
    | none => .error (.keyError k)
  | .jstr _ => .error (.typeError "string indices must be integers")
  | .jarr _ => .error (.typeError "list indices must be integers")
  | _ => .error (.typeError "object is not subscriptable")

/-- Python `v[k] = val` for a string key: only dicts support item
assignment. -/
def py_setitem (v : JValue) (k : String) (val : JValue) : Except PyErr JValue :=
  match v with
  | .jobj fields =>
    if fields.any (fun f => f.1 == k) then
      .ok (.jobj (fields.map fun f => if f.1 == k then (f.1, val) else f))
    else
      .ok (.jobj (fields ++ [(k, val)]))
  | _ => .error (.typeError "object does not support item assignment")

/-- Python iteration `for q in v`: list elements, string characters, dict
keys; `TypeError` otherwise. -/
def py_iter (v : JValue) : Except PyErr (List JValue) :=
  match v with
  | .jarr items => .ok items
  | .jstr s => .ok (s.data.map fun c => .jstr (String.mk [c]))
  | .jobj fields => .ok (fields.map fun f => .jstr f.1)
  | _ => .error (.typeError "object is not iterable")

/-- Python `v.upper()`: only strings carry the attribute; anything else raises
`AttributeError` (an `int` among them). -/
def py_upper_method : JValue → Except PyErr String
  | .jstr s => .ok (pyUpper s)
  | _ => .error (.attributeError "object has no attribute upper")

/-- Index of the first occurrence of `needle` in `hay` (for `str.index`). -/
def firstIndexOfSub (needle : List Char) : List Char → Option Nat
  | [] => if needle.isEmpty then some 0 else none
  | c :: rest =>
    if needle.isPrefixOf (c :: rest) then some 0
    else match firstIndexOfSub needle rest with
      | some i => some (i + 1)
      | none => none

/-- Python `container.index(needle)` as the quiz fix uses it. -/
def py_index (fuel : Nat) (container needle : JValue) : Except PyErr Int :=
  match container with
  | .jarr items =>
    match items.findIdx? (py_eq fuel needle) with
    | some i => .ok i
    | none => .error (.valueError "x not in list")
  | .jstr s =>
    match needle with
    | .jstr t =>
      match firstIndexOfSub t.data s.data with
      | some i => .ok i
      | none => .error (.valueError "substring not found")
    | _ => .error (.typeError "must be str")
  | _ => .error (.attributeError "object has no attribute index")

/-- `find_first_string` (learn_llm.py lines 873-879): the first truthy string
found by walking a payload's values in order; only strings and dicts are
descended into. -/
def find_first_string : Nat → JValue → Option String
  | 0, _ => none
  | _ + 1, .jstr s => some s
  | fuel + 1, .jobj fields =>
    fields.foldl
      (fun acc f =>
        match acc with
        | some t => some t
        | none =>
          match find_first_string fuel f.2 with
          | some t => if t ≠ "" then some t else none
          | none => none)
      none
  | _ + 1, _ => none

/-- The `try` body of the quiz-index fix (lines 888-898): resolve `answer`
against `options`, defaulting to 0 when the answer is not among the options. -/
def try_resolve (fuel : Nat) (q : JValue) : Except PyErr JValue := do
  let ans ← py_getitem_str q "answer"
  let opts ← py_getitem_str q "options"
  let mem ← py_in_value fuel ans opts
  if mem then
    let idx ← py_index fuel opts ans
    py_setitem q "correct_index" (.jnum idx)
  else
    py_setitem q "correct_index" (.jnum 0)

/-- One question of the quiz normalization (lines 885-900): the guard chain
`"correct_index" not in q and "answer" in q and "options" in q`, then the
`try` with its bare `except` setting index 0 — the fallback assignment itself
raises when `q` is not a dict, and that exception is uncaught. -/
def fix_question (fuel : Nat) (q : JValue) : Except PyErr JValue := do
  let c1 ← py_contains fuel "correct_index" q
  if c1 then pure q
  else do
    let c2 ← py_contains fuel "answer" q
    if !c2 then pure q
    else do
      let c3 ← py_contains fuel "options" q
      if !c3 then pure q
      else
        match try_resolve fuel q with
        | .ok q2 => pure q2
        | .error _ => py_setitem q "correct_index" (.jnum 0)

/-- `for q in payload["questions"]` (lines 884-900).  A list is mutated in
place, so its processed elements are written back; iterating any other
container yields fresh objects whose mutations (if the code ever got that far
without raising) would be discarded. -/
def fix_quiz (fuel : Nat) (payload : JValue) : Except PyErr JValue := do
  let qsv ← py_getitem_str payload "questions"
  match qsv with
  | .jarr items => do
    let items2 ← items.mapM (fix_question fuel)
    py_setitem payload "questions" (.jarr items2)
  | other => do
    let qs ← py_iter other
    let _ ← qs.mapM (fix_question fuel)
    pure payload

/-- The hallucination keys probed by the payload safety net (line 866). -/
def hallucination_keys : List String :=
  ["content", "item", "summary", "description", "value", "data"]

/-- One iteration of the action loop of `_parse_response` (learn_llm.py lines
822-909).  `some a` appends an action, `none` is a `continue`, `.error e` is
an exception escaping the iteration (the final `except` catches only
`ValueError` and `KeyError`). -/
def normalize_action (fuel : Nat) (action_dict : JValue) : Except PyErr (Option BoardAction) :=
  match action_dict with
  | .jobj fields => do
    let kind_str0 := py_or (action_dict.getKey "kind") (action_dict.getKey "action")
    let payload0 := py_or (action_dict.getKey "payload") (.jobj [])
    -- fallback: the first key that is itself a valid kind carries the action
    let scanned :=
      if !kind_str0.truthy then
        match fields.find? (fun f => (boardActionKindOfString (pyUpper f.1)).isSome) with
        | some f =>
          let payload1 :=
            match f.2 with
            | .jstr _ => JValue.jobj [("text", f.2)]
            | .jobj _ => f.2
            | _ => payload0
          (JValue.jstr (pyUpper f.1), payload1)
        | none => (kind_str0, payload0)
      else (kind_str0, payload0)
    -- default kind when none was found
    let kp ←
      if !scanned.1.truthy then do
        let q1 ← py_contains fuel "questions" scanned.2
        let q2 := action_dict.hasKey "questions"
        if q1 || q2 then
          pure (JValue.jstr "SHOW_QUIZ", if q2 then action_dict else scanned.2)
        else
          pure (JValue.jstr "WRITE_BULLET", scanned.2)
      else pure scanned
    let kind_str := kp.1
    -- flattened-structure fallback
    let payload ←
      if !kp.2.truthy then do
        let p1 ←
          if action_dict.hasKey "text" then
            py_setitem kp.2 "text" (action_dict.getKey "text")
          else pure kp.2
        if action_dict.hasKey "code" then
          py_setitem p1 "code" (action_dict.getKey "code")
        else pure p1
      else pure kp.2
    -- safety net: make sure a text lands in non-quiz payloads
    let payload ←
      match payload with
      | .jobj _ =>
        if !payload.hasKey "text" && !payload.hasKey "code" && !kind_str.eqStr "SHOW_QUIZ" then
          match hallucination_keys.find?
              (fun k => payload.hasKey k &&
                (match payload.getKey k with | .jstr _ => true | _ => false)) with
          | some k => py_setitem payload "text" (payload.getKey k)
          | none =>
            match find_first_string fuel payload with
            | some t => if t ≠ "" then py_setitem payload "text" (.jstr t) else pure payload
            | none => pure payload
        else pure payload
      | _ => pure payload
    -- quiz normalization
    let payload ←
      if kind_str.eqStr "SHOW_QUIZ" then do
        let hasQ ← py_contains fuel "questions" payload
        if hasQ then fix_quiz fuel payload else pure payload
      else pure payload
    -- BoardAction construction: only ValueError/KeyError turn into `continue`;
    -- kind_str.upper() on a non-string raises AttributeError, which escapes
    let fin : Except PyErr (Option BoardAction) := do
      let up ← py_upper_method kind_str
      match boardActionKindOfString up with
      | some k =>
        match payload with
        | .jobj _ => pure (some { kind := k, payload := payload })
        | _ => Except.error (.valueError "pydantic ValidationError: payload is not a dict")
      | none => Except.error (.valueError "is not a valid BoardActionKind")
    match fin with
    | .ok r => pure r
    | .error e => if is_value_error e || is_key_error e then pure none else Except.error e
  | _ => pure none

/-- The action loop with its mutable accumulator (`board_actions`): an
exception escaping an iteration keeps the actions appended before it. -/
def actions_from_list (fuel : Nat) (acc : List BoardAction) :
    List JValue → List BoardAction × Option PyErr
  | [] => (acc, none)
  | d :: rest =>
    match normalize_action fuel d with
    | .ok none => actions_from_list fuel acc rest
    | .ok (some a) => actions_from_list fuel (acc ++ [a]) rest
    | .error e => (acc, some e)

/-- The board-decoding stage of `_parse_response` (learn_llm.py lines
802-914), as a function of the `json.loads` outcome on the extracted board
region.  The enclosing `try` catches only `json.JSONDecodeError` and
`ValueError` (line 911), so any other exception — `.error` here — escapes
`_parse_response` itself. -/
def parse_response_actions (fuel : Nat) (decoded : Except PyErr JValue) :
    Except PyErr (List BoardAction) :=
  let inner :=
    match decoded with
    | .error e => (([] : List BoardAction), some e)
    | .ok raw =>
      let raw_list :=
        match raw with
        | .jarr items => items
        | .jobj _ => [raw]
        | _ => []
      actions_from_list fuel [] raw_list
  match inner.2 with
  | none => .ok inner.1
  | some e => if is_value_error e then .ok inner.1 else .error e

/-- JSON whitespace. -/
def jsonSkipWs (cs : List Char) : List Char :=
  cs.dropWhile fun c => c == ' ' || c == '\t' || c == '\n' || c == '\r'

/-- A JSON string body: characters up to the closing quote, with the standard
escapes.  Returns the string and the remaining input past the quote. -/
def parseJStrAux : Nat → List Char → List Char → Except PyErr (String × List Char)
  | 0, _, _ => .error (.jsonDecodeError "Unterminated string")
  | _ + 1, acc, '"' :: rest => .ok (String.mk acc, rest)
  | fuel + 1, acc, '\\' :: e :: rest =>
    match e with
    | '"' => parseJStrAux fuel (acc ++ ['"']) rest
    | '\\' => parseJStrAux fuel (acc ++ ['\\']) rest
    | '/' => parseJStrAux fuel (acc ++ ['/']) rest
    | 'n' => parseJStrAux fuel (acc ++ ['\n']) rest
    | 't' => parseJStrAux fuel (acc ++ ['\t']) rest
    | 'r' => parseJStrAux fuel (acc ++ ['\r']) rest
    | 'b' => parseJStrAux fuel (acc ++ ['\x08']) rest
    | 'f' => parseJStrAux fuel (acc ++ ['\x0c']) rest
    | _ => .error (.jsonDecodeError "Invalid escape")
  | fuel + 1, acc, c :: rest => parseJStrAux fuel (acc ++ [c]) rest
  | _ + 1, _, [] => .error (.jsonDecodeError "Unterminated string")

/-- A JSON string starting at a `"`. -/
def parseJStr : List Char → Except PyErr (String × List Char)
  | '"' :: rest => parseJStrAux (rest.length + 1) [] rest
  | _ => .error (.jsonDecodeError "Expecting string")

/-- Digits to a natural number. -/
def digitsToNat (acc : Nat) : List Char → Nat × List Char
  | c :: rest =>
    if '0' ≤ c ∧ c ≤ '9' then digitsToNat (acc * 10 + (c.toNat - '0'.toNat)) rest
    else (acc, c :: rest)
  | [] => (acc, [])

/-- A JSON integer (floats are outside the model and rejected). -/
def parseJInt (cs : List Char) : Except PyErr (JValue × List Char) :=
  let (neg, cs1) := match cs with
    | '-' :: rest => (true, rest)
    | _ => (false, cs)
  match cs1 with
  | c :: _ =>
    if '0' ≤ c ∧ c ≤ '9' then
      let p := digitsToNat 0 cs1
      match p.2 with
      | '.' :: _ => .error (.jsonDecodeError "floats are outside this model")
      | 'e' :: _ => .error (.jsonDecodeError "floats are outside this model")
      | 'E' :: _ => .error (.jsonDecodeError "floats are outside this model")
      | _ => .ok (.jnum (if neg then -(p.1 : Int) else (p.1 : Int)), p.2)
    else .error (.jsonDecodeError "Expecting value")
  | [] => .error (.jsonDecodeError "Expecting value")

/-- A partially built JSON container on the parse stack. -/
inductive JFrame
  | arrF (items : List JValue)
  | objF (fields : List (String × JValue)) (key : String)

/-- The `json.loads` grammar with an explicit container stack: `pending = none`
expects a value, `pending = some v` closes or extends the innermost
container.  Fuel-driven so the definition reduces in the kernel. -/
def jgo : Nat → List JFrame → Option JValue → List Char → Except PyErr (JValue × List Char)
  | 0, _, _, _ => .error (.jsonDecodeError "input too deep")
  | fuel + 1, stack, some v, cs =>
    match stack with
    | [] => .ok (v, cs)
    | .arrF items :: stk =>
      match jsonSkipWs cs with
      | ',' :: rest => jgo fuel (.arrF (items ++ [v]) :: stk) none rest
      | ']' :: rest => jgo fuel stk (some (.jarr (items ++ [v]))) rest
      | _ => .error (.jsonDecodeError "Expecting , or ] delimiter")
    | .objF fields key :: stk =>
      match jsonSkipWs cs with
      | ',' :: rest =>
        match parseJStr (jsonSkipWs rest) with
        | .ok (k2, rest2) =>
          match jsonSkipWs rest2 with
          | ':' :: rest3 => jgo fuel (.objF (fields ++ [(key, v)]) k2 :: stk) none rest3
          | _ => .error (.jsonDecodeError "Expecting : delimiter")
        | .error e => .error e
      | '}' :: rest => jgo fuel stk (some (.jobj (fields ++ [(key, v)]))) rest
      | _ => .error (.jsonDecodeError "Expecting , or \x7d delimiter")
  | fuel + 1, stack, none, cs =>
    match jsonSkipWs cs with
    | '[' :: rest =>
      match jsonSkipWs rest with
      | ']' :: rest2 => jgo fuel stack (some (.jarr [])) rest2
      | rest2 => jgo fuel (.arrF [] :: stack) none rest2
    | '{' :: rest =>
      match jsonSkipWs rest with
      | '}' :: rest2 => jgo fuel stack (some (.jobj [])) rest2
      | rest2 =>
        match parseJStr rest2 with
        | .ok (k, rest3) =>
          match jsonSkipWs rest3 with
          | ':' :: rest4 => jgo fuel (.objF [] k :: stack) none rest4
          | _ => .error (.jsonDecodeError "Expecting : delimiter")
        | .error e => .error e
    | '"' :: rest =>
      match parseJStrAux (rest.length + 1) [] rest with
      | .ok (s, rest2) => jgo fuel stack (some (.jstr s)) rest2
      | .error e => .error e
    | 't' :: 'r' :: 'u' :: 'e' :: rest => jgo fuel stack (some (.jbool true)) rest
    | 'f' :: 'a' :: 'l' :: 's' :: 'e' :: rest => jgo fuel stack (some (.jbool false)) rest
    | 'n' :: 'u' :: 'l' :: 'l' :: rest => jgo fuel stack (some .jnull) rest
    | other =>
      match parseJInt other with
      | .ok (v, rest) => jgo fuel stack (some v) rest
      | .error e => .error e

/-- `json.loads` (the fragment of the grammar without floats). -/
def json_loads (s : String) : Except PyErr JValue :=
  match jgo (2 * s.data.length + 8) [] none s.data with
  | .ok (v, rest) =>
    if (jsonSkipWs rest).isEmpty then .ok v
    else .error (.jsonDecodeError "Extra data")
  | .error e => .error e

/-- A freshly created session with difficulty 3, for concrete instances. -/
def demoSession : LearnSession :=
  mkLearnSession "session-1" "lesson-1" none 3 "en"

/-- A session mid-lesson: TEACHING with one earlier interruption. -/
def teachingSession : LearnSession :=
  { demoSession with status := .TEACHING, interruption_count := 1 }

/-- A paused session. -/
def pausedSession : LearnSession :=
  { demoSession with status := .PAUSED }

/-- Two frames the VAD classifies as speech. -/
def exSpeech : List Frame := [⟨0, true⟩, ⟨1, true⟩]

/-- Ten frames the VAD classifies as silence (the silence threshold's worth). -/
def exSilence : List Frame := (List.range 10).map fun i => ⟨i + 2, false⟩

/-- An inbound message whose decoding raises, followed by a valid interrupt. -/
def badDecodeMsgs : List InMsg :=
  [.textMsg (.error (.valueError "Expecting value")),
   .textMsg (.ok (.interrupt none))]

/-- A parsed teacher response with three speech words and one board action. -/
def demoResponse : TeacherResponse :=
  { speech_text := "hello there world"
    board_actions := [{ kind := .WRITE_TITLE, payload := .jobj [("text", .jstr "X")] }]
    language := "english"
    quiz := false }

/-- A synthesized audio payload. -/
def demoAudio : Audio := [1, 2, 3]

/-- The collaborator oracle of a successful turn. -/
def demoOracle : TurnOracle :=
  { resp := .ok demoResponse, audio_result := some demoAudio, title_result := none }

/-- The difficulty level carried by the two status broadcasts of a
user-message turn: the session's level after the automatic interruption pause
(the pause fires exactly when the status was TEACHING). -/
def ums_difficulty (s : LearnSession) : Int :=
  (if s.status = SessionStatus.TEACHING then s.pause else s).difficulty_level

/-- The optional titling status broadcast of a user-message turn: emitted only
when the session still has a generic title, the response is not a quiz, and
the title generator returned a usable title; the session status at that point
is still ANSWERING. -/
def ums_title_events (s : LearnSession) (resp : TeacherResponse)
    (t : Option String) : List OutEvent :=
  match title_decision s.custom_title resp.quiz t with
  | some tt => [OutEvent.statusMsg .ANSWERING ("Session titled: " ++ tt)]
  | none => []

/-! ## Theorems -/

/-- Every single method call keeps `difficulty_level` within [1,5]. -/
theorem applyOp_difficulty_bounds (s : LearnSession) (op : Op)
    (h1 : 1 ≤ s.difficulty_level) (h5 : s.difficulty_level ≤ 5) :
    1 ≤ (applyOp s op).difficulty_level ∧ (applyOp s op).difficulty_level ≤ 5 := by
  cases op <;>
    simp only [applyOp, LearnSession.start, LearnSession.pause, LearnSession.resume,
      LearnSession.continue_teaching, LearnSession.wait_for_answer, LearnSession.next_step,
      LearnSession.set_difficulty, LearnSession.set_checkpoint, LearnSession.add_history] <;>
    (try split_ifs) <;>
    first
      | exact ⟨h1, h5⟩
      | (dsimp only; constructor <;> omega)

/-- The difficulty bound is preserved by any call sequence. -/
theorem runOps_difficulty_bounds (s : LearnSession) (ops : List Op)
    (h1 : 1 ≤ s.difficulty_level) (h5 : s.difficulty_level ≤ 5) :
    1 ≤ (runOps s ops).difficulty_level ∧ (runOps s ops).difficulty_level ≤ 5 := by
  induction ops generalizing s with
  | nil => exact ⟨h1, h5⟩
  | cons op rest ih =>
    have hb := applyOp_difficulty_bounds s op h1 h5
    simpa only [runOps, List.foldl] using ih (applyOp s op) hb.1 hb.2

/-- Every single method call either leaves `interruption_count` no smaller, or
is a successful `start()` resetting it to 0. -/
theorem applyOp_interruption_monotone (t : LearnSession) (op : Op) :
    t.interruption_count ≤ (applyOp t op).interruption_count ∨
      (op = .startOp ∧ (applyOp t op).interruption_count = 0) := by
  cases op with
  | startOp =>
    by_cases hc : t.status = SessionStatus.IDLE ∨ t.status = SessionStatus.ANSWERING
    · exact Or.inr ⟨rfl, by simp only [applyOp, LearnSession.start, if_pos hc]⟩
    · exact Or.inl (by simp only [applyOp, LearnSession.start, if_neg hc]; exact le_rfl)
  | pauseOp =>
    apply Or.inl
    simp only [applyOp, LearnSession.pause]
    split_ifs <;> dsimp only <;> omega
  | resumeOp =>
    apply Or.inl
    by_cases hc : t.status = SessionStatus.PAUSED
    · simp only [applyOp, LearnSession.resume, if_pos hc]; exact le_rfl
    · simp only [applyOp, LearnSession.resume, if_neg hc]; exact le_rfl
  | continueTeachingOp =>
    apply Or.inl
    by_cases hc : t.status = SessionStatus.RESUMING ∨ t.status = SessionStatus.ANSWERING
    · simp only [applyOp, LearnSession.continue_teaching, if_pos hc]; exact le_rfl
    · simp only [applyOp, LearnSession.continue_teaching, if_neg hc]; exact le_rfl
  | waitForAnswerOp => exact Or.inl le_rfl
  | nextStepOp => exact Or.inl le_rfl
  | setDifficultyOp level =>
    apply Or.inl
    simp only [applyOp, LearnSession.set_difficulty]
    split_ifs <;> exact le_rfl
  | setCheckpointOp summary => exact Or.inl le_rfl
  | addHistoryOp role content => exact Or.inl le_rfl

/-- C2: a session created with an initial difficulty in [1,5] keeps
`difficulty_level` within [1,5] after any sequence of start, pause, resume,
continue_teaching, wait_for_answer, next_step, set_difficulty, set_checkpoint
and add_history; and `interruption_count` never decreases across a call except
that a successful `start()` resets it to 0. -/
theorem session_difficulty_and_interruption_invariant
    (sid lid : String) (uid : Option String) (d0 : Int) (lang : String)
    (ops : List Op) (h : 1 ≤ d0 ∧ d0 ≤ 5) :
    (1 ≤ (runOps (mkLearnSession sid lid uid d0 lang) ops).difficulty_level ∧
      (runOps (mkLearnSession sid lid uid d0 lang) ops).difficulty_level ≤ 5) ∧
    (∀ t : LearnSession, ∀ op : Op,
      t.interruption_count ≤ (applyOp t op).interruption_count ∨
        (op = .startOp ∧ (applyOp t op).interruption_count = 0)) :=
  ⟨runOps_difficulty_bounds _ ops h.1 h.2, applyOp_interruption_monotone⟩

/-- Witness for C2 at a concrete session and call sequence. -/
theorem session_difficulty_and_interruption_invariant_witness :
    (1 ≤ (runOps (mkLearnSession "session-1" "lesson-1" none 3 "en")
        [.startOp, .pauseOp, .pauseOp, .setDifficultyOp 9]).difficulty_level ∧
      (runOps (mkLearnSession "session-1" "lesson-1" none 3 "en")
        [.startOp, .pauseOp, .pauseOp, .setDifficultyOp 9]).difficulty_level ≤ 5) ∧
    (∀ t : LearnSession, ∀ op : Op,
      t.interruption_count ≤ (applyOp t op).interruption_count ∨
        (op = .startOp ∧ (applyOp t op).interruption_count = 0)) :=
  session_difficulty_and_interruption_invariant "session-1" "lesson-1" none 3 "en"
    [.startOp, .pauseOp, .pauseOp, .setDifficultyOp 9] (by constructor <;> decide)

/-- C5: `resume()` succeeds exactly from PAUSED (moving to RESUMING) and
otherwise raises the invalid-transition `ValueError` leaving every field
unchanged; `continue_teaching()` succeeds exactly from RESUMING or ANSWERING
(moving to TEACHING) and otherwise fails likewise. -/
theorem resume_continue_guards (s : LearnSession) :
    (s.status = .PAUSED → s.resume = .ok { s with status := .RESUMING }) ∧
    (s.status ≠ .PAUSED →
      s.resume = .error (.valueError "Cannot resume from state") ∧
        applyOp s .resumeOp = s) ∧
    ((s.status = .RESUMING ∨ s.status = .ANSWERING) →
      s.continue_teaching = .ok { s with status := .TEACHING }) ∧
    (¬(s.status = .RESUMING ∨ s.status = .ANSWERING) →
      s.continue_teaching = .error (.valueError "Cannot continue from state") ∧
        applyOp s .continueTeachingOp = s) := by
  refine ⟨fun h => ?_, fun h => ?_, fun h => ?_, fun h => ?_⟩
  · simp only [LearnSession.resume, if_pos h]
  · simp only [LearnSession.resume, applyOp, if_neg h]
    exact ⟨trivial, trivial⟩
  · simp only [LearnSession.continue_teaching, if_pos h]
  · simp only [LearnSession.continue_teaching, applyOp, if_neg h]
    exact ⟨trivial, trivial⟩

/-- Witness for C5: both guards exercised on concrete sessions. -/
theorem resume_continue_guards_witness :
    pausedSession.resume = .ok { pausedSession with status := .RESUMING } ∧
    (teachingSession.resume = .error (.valueError "Cannot resume from state") ∧
      applyOp teachingSession .resumeOp = teachingSession) :=
  ⟨(resume_continue_guards pausedSession).1 rfl,
   (resume_continue_guards teachingSession).2.1 (by decide)⟩

/-- Counterexample to C6 as stated: eleven `add_history` calls on a fresh
session leave eleven entries in memory — the in-memory bound is not 10. -/
theorem add_history_exceeds_ten :
    ((List.range 11).foldl (fun t _ => t.add_history "user" "m") demoSession).history.length
      = 11 ∧
    10 < ((List.range 11).foldl (fun t _ => t.add_history "user" "m")
      demoSession).history.length := by
  constructor <;> decide

/-- One `add_history` call keeps the history within the bound of 100. -/
theorem add_history_le_bound (s : LearnSession) (h : s.history.length ≤ 100)
    (role content : String) :
    (s.add_history role content).history.length ≤ 100 := by
  simp only [LearnSession.add_history]
  split_ifs with hgt
  · simp only [List.length_tail, List.length_append, List.length_cons, List.length_nil]
    omega
  · simp only [List.length_append, List.length_cons, List.length_nil] at hgt ⊢
    omega

/-- C6 amended: the in-memory history bound of `add_history` is 100 (not the
stated 10; the method's docstring still says "last 10 items" while the code
uses 100 for DB-backed sessions), and within the bound eviction is FIFO: a
call below the bound appends, and a call at the bound drops the oldest entry
and appends the new one. -/
theorem add_history_bound_amended (s : LearnSession) (h : s.history.length ≤ 100) :
    (∀ entries : List (String × String),
      ((entries.foldl (fun t rc => t.add_history rc.1 rc.2) s)).history.length ≤ 100) ∧
    (∀ role content : String, s.history.length < 100 →
      (s.add_history role content).history = s.history ++ [(role, content)]) ∧
    (∀ role content : String, s.history.length = 100 →
      (s.add_history role content).history = s.history.tail ++ [(role, content)]) := by
  refine ⟨?_, ?_, ?_⟩
  · intro entries
    induction entries generalizing s with
    | nil => exact h
    | cons rc rest ih =>
      simpa only [List.foldl] using ih _ (add_history_le_bound s h rc.1 rc.2)
  · intro role content hlt
    have hcond : ¬((s.history ++ [(role, content)]).length > 100) := by
      simp only [List.length_append, List.length_cons, List.length_nil]
      omega
    simp only [LearnSession.add_history, if_neg hcond]
  · intro role content heq
    have hne : s.history ≠ [] := by
      intro hnil
      rw [hnil] at heq
      simp at heq
    have hcond : (s.history ++ [(role, content)]).length > 100 := by
      simp only [List.length_append, List.length_cons, List.length_nil]
      omega
    simp only [LearnSession.add_history, if_pos hcond]
    exact List.tail_append_singleton_of_ne_nil hne

/-- Witness for C6 amended at a concrete session. -/
theorem add_history_bound_amended_witness :
    ((([("user", "a")] : List (String × String)).foldl
      (fun t rc => t.add_history rc.1 rc.2) demoSession)).history.length ≤ 100 :=
  (add_history_bound_amended demoSession (by decide)).1 [("user", "a")]

/-- `pause()` always lands in PAUSED. -/
theorem pause_status (s : LearnSession) : s.pause.status = .PAUSED := by
  by_cases hp : s.status = SessionStatus.PAUSED
  · simp only [LearnSession.pause, if_pos hp]
    exact hp
  · simp only [LearnSession.pause, if_neg hp]
    split_ifs <;> rfl

/-- `pause()` on an already paused session only bumps the counter. -/
theorem pause_already_paused (s : LearnSession) (h : s.status = .PAUSED) :
    s.pause = { s with interruption_count := s.interruption_count + 1 } := by
  simp only [LearnSession.pause, if_pos h]

/-- `pause()` increments the interruption counter by exactly one. -/
theorem pause_count (s : LearnSession) :
    s.pause.interruption_count = s.interruption_count + 1 := by
  simp only [LearnSession.pause]
  split_ifs <;> rfl

/-- When a `pause()` call changes the difficulty, the session was not already
paused, had a prior interruption, and sat above difficulty 1; the change is a
single decrement. -/
theorem pause_difficulty_change (s : LearnSession)
    (hne : s.pause.difficulty_level ≠ s.difficulty_level) :
    s.status ≠ .PAUSED ∧ 1 ≤ s.interruption_count ∧ 1 < s.difficulty_level ∧
      s.pause.difficulty_level = s.difficulty_level - 1 := by
  by_cases hp : s.status = SessionStatus.PAUSED
  · simp only [LearnSession.pause, if_pos hp] at hne
    exact absurd rfl hne
  · simp only [LearnSession.pause, if_neg hp] at hne ⊢
    split_ifs at hne ⊢ with hcond
    · dsimp only at hcond ⊢
      exact ⟨hp, by omega, hcond.2, rfl⟩
    · exact absurd rfl hne

/-- C7 amended: two consecutive `pause()` calls raise `interruption_count` by
exactly 2 and change `difficulty_level` at most once — if it changes, the
change happens at the FIRST of the two calls (possible only when the session
was not already PAUSED, already had an interruption, and the difficulty was
above 1); the second call never changes it. -/
theorem pause_twice_amended (s : LearnSession) :
    s.pause.pause.interruption_count = s.interruption_count + 2 ∧
    s.pause.pause.difficulty_level = s.pause.difficulty_level ∧
    (s.pause.difficulty_level ≠ s.difficulty_level →
      s.status ≠ .PAUSED ∧ 1 ≤ s.interruption_count ∧ 1 < s.difficulty_level ∧
        s.pause.difficulty_level = s.difficulty_level - 1) := by
  have h2 := pause_already_paused s.pause (pause_status s)
  refine ⟨?_, ?_, pause_difficulty_change s⟩
  · rw [h2]
    dsimp only
    rw [pause_count s]
  · rw [h2]

/-- Witness for C7 amended at a concrete session (fresh TEACHING session:
no difficulty change at all across the two calls). -/
theorem pause_twice_amended_witness :
    demoSession.pause.pause.interruption_count = demoSession.interruption_count + 2 ∧
    demoSession.pause.pause.difficulty_level = demoSession.pause.difficulty_level :=
  ⟨(pause_twice_amended demoSession).1, (pause_twice_amended demoSession).2.1⟩

/-- Counterexample to C7 as stated: on a TEACHING session with one earlier
interruption and difficulty 3, two consecutive `pause()` calls change the
difficulty after the FIRST call (3 → 2), not after the second. -/
theorem pause_twice_first_call_changes_difficulty :
    teachingSession.difficulty_level = 3 ∧
    teachingSession.pause.difficulty_level = 2 ∧
    teachingSession.pause.pause.difficulty_level = 2 ∧
    teachingSession.pause.pause.interruption_count =
      teachingSession.interruption_count + 2 := by
  decide

/-- Counterexample to C8 as stated: a text holding both an Arabic-range word
and the token "english" is routed by the keyword override — checked BEFORE the
script check — and yields "english", not "arabic". -/
theorem arabic_text_with_english_keyword :
    has_arabic "english مرحبا" = true ∧
    detect_language "english مرحبا" none = "english" ∧
    detect_language "english مرحبا" (some "arabic") = "english" := by
  refine ⟨by decide, by decide, by decide⟩

/-- C8 amended: when the lowered text does not contain the substrings
"english"/"anglais" (the keyword override, which runs first), any text with an
Arabic-range character is detected as "arabic" whatever its other tokens and
whatever the context language. -/
theorem detect_arabic_script_amended (text : String) (ctx : Option String)
    (hk : keyword_override text = false) (ha : has_arabic text = true) :
    detect_language text ctx = "arabic" := by
  simp only [detect_language, hk, ha, Bool.false_eq_true, if_false, if_true]

/-- Witness for C8 amended on a concrete Arabic text. -/
theorem detect_arabic_script_amended_witness :
    keyword_override "مرحبا كيف" = false ∧ has_arabic "مرحبا كيف" = true ∧
    detect_language "مرحبا كيف" (some "english") = "arabic" :=
  ⟨by decide, by decide,
   detect_arabic_script_amended "مرحبا كيف" (some "english") (by decide) (by decide)⟩

/-- `max` over the counts dict returns the first key attaining the maximum, so
english wins all ties it participates in from the front. -/
theorem argmax_lang_eng (e f sp ar : Nat) (hf : f ≤ e) (hs : sp ≤ e) (ha : ar ≤ e) :
    argmax_lang e f sp ar = ("english", e) := by
  simp only [argmax_lang]
  split_ifs <;> first | rfl | omega

/-- The winner of `argmax_lang` is one of the four languages with its count. -/
theorem argmax_lang_cases (e f sp ar : Nat) :
    argmax_lang e f sp ar = ("english", e) ∨ argmax_lang e f sp ar = ("french", f) ∨
    argmax_lang e f sp ar = ("spanish", sp) ∨ argmax_lang e f sp ar = ("arabic", ar) := by
  simp only [argmax_lang]
  split_ifs <;> simp

/-- A weak winner (at most 1 matched stop-word) never overrides a valid
context language. -/
theorem apply_viscosity_weak (detected : String) (m : Nat) (hm : m ≤ 1) :
    apply_viscosity detected m (some "french") = "french" := by
  by_cases hd : detected = "french"
  · subst hd
    simp only [apply_viscosity]
    rcases Nat.eq_zero_or_pos m with h0 | hpos
    · simp [h0]
    · simp [Nat.pos_iff_ne_zero.mp hpos, hpos]
  · simp only [apply_viscosity]
    rcases Nat.eq_zero_or_pos m with h0 | hpos
    · simp [h0]
    · have hlt : m < 3 := by omega
      simp [hd, hpos, hlt]

/-- C9 amended: with context language "french", for a text that triggers
neither the "english"/"anglais" keyword override nor the Arabic script check,
(a) when every language matches at most one stop-word the detector returns the
context language "french", and (b) when at least 3 distinct English stop-words
match and no other language scores higher, the detector returns "english"
despite the french context. -/
theorem detect_language_stickiness_amended (text : String)
    (hk : keyword_override text = false) (ha : has_arabic text = false) :
    ((count_matches eng_stops (clean_tokens text) ≤ 1 ∧
      count_matches fr_stops (clean_tokens text) ≤ 1 ∧
      count_matches es_stops (clean_tokens text) ≤ 1 ∧
      count_matches ar_stops (clean_tokens text) ≤ 1) →
        detect_language text (some "french") = "french") ∧
    ((3 ≤ count_matches eng_stops (clean_tokens text) ∧
      count_matches fr_stops (clean_tokens text) ≤ count_matches eng_stops (clean_tokens text) ∧
      count_matches es_stops (clean_tokens text) ≤ count_matches eng_stops (clean_tokens text) ∧
      count_matches ar_stops (clean_tokens text) ≤ count_matches eng_stops (clean_tokens text)) →
        detect_language text (some "french") = "english") := by
  simp only [detect_language, hk, ha, Bool.false_eq_true, if_false]
  constructor
  · rintro ⟨he, hf, hs, har⟩
    rcases argmax_lang_cases (count_matches eng_stops (clean_tokens text))
        (count_matches fr_stops (clean_tokens text))
        (count_matches es_stops (clean_tokens text))
        (count_matches ar_stops (clean_tokens text)) with h | h | h | h <;>
      rw [h] <;> exact apply_viscosity_weak _ _ (by assumption)
  · rintro ⟨he, hf, hs, har⟩
    rw [argmax_lang_eng _ _ _ _ hf hs har]
    have h0 : count_matches eng_stops (clean_tokens text) ≠ 0 := by omega
    have h3 : ¬(count_matches eng_stops (clean_tokens text) < 3) := by omega
    simp [apply_viscosity, h0, h3, Nat.pos_iff_ne_zero]

/-- Silence frames reaching an idle (non-recording) pipeline are dropped. -/
theorem run_frames_idle (ms : List Frame) :
    ∀ vm : VoiceManager, vm.is_recording = false →
      (∀ f ∈ ms, f.vadSpeech = false) → run_frames vm ms = (vm, []) := by
  induction ms with
  | nil => intro vm _ _; rfl
  | cons m rest ih =>
    intro vm hrec hm
    have hm0 : m.vadSpeech = false := hm m (List.mem_cons_self _ _)
    have h1 : add_frame vm m = (vm, none) := by
      simp [add_frame, hm0, hrec]
    simp only [run_frames, h1]
    rw [ih vm hrec fun f hf => hm f (List.mem_cons_of_mem _ hf)]
    rfl

/-- Speech frames fed to a recording pipeline extend the buffer and keep the
silence counter at zero. -/
theorem run_frames_speech_zero (ks : List Frame) :
    ∀ vm : VoiceManager, vm.is_recording = true → vm.silence_frames = 0 →
      (∀ f ∈ ks, f.vadSpeech = true) →
      run_frames vm ks =
        ({ vm with recorded_audio := vm.recorded_audio ++ ks, silence_frames := 0 }, []) := by
  induction ks with
  | nil =>
    intro vm hrec hsil _
    obtain ⟨r, sil, rec, af, hv⟩ := vm
    dsimp only at hrec hsil
    subst hrec hsil
    simp [run_frames]
  | cons k rest ih =>
    intro vm hrec hsil hk
    have hk0 : k.vadSpeech = true := hk k (List.mem_cons_self _ _)
    obtain ⟨r, sil, rec, af, hv⟩ := vm
    dsimp only at hrec hsil
    subst hrec hsil
    have h1 : add_frame ⟨true, 0, rec, af, hv⟩ k = (⟨true, 0, rec ++ [k], af, hv⟩, none) := by
      simp [add_frame, hk0]
    simp only [run_frames, h1]
    rw [ih ⟨true, 0, rec ++ [k], af, hv⟩ rfl rfl fun f hf => hk f (List.mem_cons_of_mem _ hf)]
    simp

/-- Silence frames fed to a recording pipeline below the threshold are
appended while the counter climbs; the frame that reaches 10 triggers exactly
one transcription over the whole recorded buffer and ends the recording. -/
theorem run_frames_silence_countdown (ms : List Frame) :
    ∀ vm : VoiceManager, vm.is_recording = true → vm.auto_finish = true →
      vm.has_vad = true → vm.silence_frames < 10 → 10 ≤ vm.silence_frames + ms.length →
      (∀ f ∈ ms, f.vadSpeech = false) →
      run_frames vm ms =
        ({ vm with is_recording := false, silence_frames := 10,
                   recorded_audio := vm.recorded_audio ++ ms.take (10 - vm.silence_frames) },
         [vm.recorded_audio ++ ms.take (10 - vm.silence_frames)]) := by
  induction ms with
  | nil =>
    intro vm _ _ _ hlt hge _
    simp only [List.length_nil, Nat.add_zero] at hge
    omega
  | cons m rest ih =>
    intro vm hrec haf hv hlt hge hm
    have hm0 : m.vadSpeech = false := hm m (List.mem_cons_self _ _)
    have hmr : ∀ f ∈ rest, f.vadSpeech = false := fun f hf => hm f (List.mem_cons_of_mem _ hf)
    obtain ⟨r, sil, rec, af, hvad⟩ := vm
    dsimp only at hrec haf hv hlt hge ⊢
    subst hrec haf hv
    simp only [List.length_cons] at hge
    by_cases hnine : sil = 9
    · subst hnine
      have h1 : add_frame ⟨true, 9, rec, true, true⟩ m =
          (⟨false, 10, rec ++ [m], true, true⟩, some (rec ++ [m])) := by
        simp [add_frame, hm0, max_silence_frames]
      simp only [run_frames, h1]
      rw [run_frames_idle rest ⟨false, 10, rec ++ [m], true, true⟩ rfl hmr]
      have htake : (m :: rest).take (10 - 9) = [m] := rfl
      rw [htake]
      simp
    · have hcond : ¬(sil + 1 ≥ max_silence_frames) := by
        simp only [max_silence_frames]
        omega
      have h1 : add_frame ⟨true, sil, rec, true, true⟩ m =
          (⟨true, sil + 1, rec ++ [m], true, true⟩, none) := by
        simp [add_frame, hm0, hcond]
      simp only [run_frames, h1]
      rw [ih ⟨true, sil + 1, rec ++ [m], true, true⟩ rfl rfl rfl
          (by show sil + 1 < 10; omega) (by show 10 ≤ sil + 1 + rest.length; omega) hmr]
      have htake : (m :: rest).take (10 - sil) = m :: rest.take (10 - (sil + 1)) := by
        have h10 : 10 - sil = (10 - (sil + 1)) + 1 := by omega
        rw [h10, List.take_succ_cons]
      rw [htake]
      simp

/-- From the fresh per-connection state, a nonempty run of speech frames
starts a recording holding exactly those frames. -/
theorem run_frames_fresh_speech (ks : List Frame) (hk : ∀ f ∈ ks, f.vadSpeech = true)
    (hne : ks ≠ []) :
    run_frames vmInit ks =
      ({ vmInit with is_recording := true, recorded_audio := ks }, []) := by
  cases ks with
  | nil => exact absurd rfl hne
  | cons k rest =>
    have hk0 : k.vadSpeech = true := hk k (List.mem_cons_self _ _)
    have h1 : add_frame vmInit k =
        ({ is_recording := true, silence_frames := 0, recorded_audio := [k],
           auto_finish := true, has_vad := true }, none) := by
      simp [add_frame, vmInit, hk0]
    simp only [run_frames, h1]
    rw [run_frames_speech_zero rest ⟨true, 0, [k], true, true⟩ rfl rfl
        fun f hf => hk f (List.mem_cons_of_mem _ hf)]
    simp [vmInit]

/-- `run_frames` over a concatenation composes the two runs. -/
theorem run_frames_append (l1 l2 : List Frame) :
    ∀ vm : VoiceManager,
      run_frames vm (l1 ++ l2) =
        ((run_frames (run_frames vm l1).1 l2).1,
         (run_frames vm l1).2 ++ (run_frames (run_frames vm l1).1 l2).2) := by
  induction l1 with
  | nil => intro vm; simp [run_frames]
  | cons f rest ih =>
    intro vm
    have hc : (f :: rest) ++ l2 = f :: (rest ++ l2) := rfl
    rw [hc]
    simp only [run_frames]
    rw [ih (add_frame vm f).1]
    simp [List.append_assoc]

/-- Persisting artifacts only touches the `quizzes`/`flashcards` lists. -/
theorem persist_foldl_status (l : List BoardAction) :
    ∀ s : LearnSession, (l.foldl persist_artifact s).status = s.status := by
  induction l with
  | nil => intro s; rfl
  | cons a rest ih =>
    intro s
    simp only [List.foldl]
    rw [ih]
    simp only [persist_artifact]
    split_ifs <;> rfl

/-- Persisting artifacts leaves `custom_title` alone. -/
theorem persist_foldl_custom_title (l : List BoardAction) :
    ∀ s : LearnSession, (l.foldl persist_artifact s).custom_title = s.custom_title := by
  induction l with
  | nil => intro s; rfl
  | cons a rest ih =>
    intro s
    simp only [List.foldl]
    rw [ih]
    simp only [persist_artifact]
    split_ifs <;> rfl

/-- Persisting artifacts leaves `step_id` alone. -/
theorem persist_foldl_step_id (l : List BoardAction) :
    ∀ s : LearnSession, (l.foldl persist_artifact s).step_id = s.step_id := by
  induction l with
  | nil => intro s; rfl
  | cons a rest ih =>
    intro s
    simp only [List.foldl]
    rw [ih]
    simp only [persist_artifact]
    split_ifs <;> rfl

/-- `pause()` never touches the session title. -/
theorem pause_custom_title (s : LearnSession) : s.pause.custom_title = s.custom_title := by
  simp only [LearnSession.pause]
  split_ifs <;> rfl

/-- `pause()` never touches the step counter. -/
theorem pause_step_id (s : LearnSession) : s.pause.step_id = s.step_id := by
  simp only [LearnSession.pause]
  split_ifs <;> rfl

/-- C3: on every user-message turn (outside the quiz-result tag) the handler
emits, in this strict order: the ANSWERING status, the TEACHING status, one
text delta per whitespace-split word of the speech text, one event per parsed
board action, the final consolidated speech+actions event, the synthesized
audio payload (the awaited result of the background synthesis task, sent after
the textual content), then the optional titling broadcast and the checkpoint —
and no exception escapes the branch. -/
theorem user_message_emission_order (s : LearnSession) (text : String)
    (resp : TeacherResponse) (a : Audio) (t : Option String)
    (hq : containsSub "[QUIZ_RESULT:" text = false) :
    (user_message_body s text ⟨.ok resp, some a, t⟩).2.1 =
      [OutEvent.statusEv .ANSWERING (ums_difficulty s),
       OutEvent.statusEv .TEACHING (ums_difficulty s)]
        ++ (pySplitWhitespace resp.speech_text).map (fun w => OutEvent.textDelta (w ++ " "))
        ++ resp.board_actions.map OutEvent.boardActionEv
        ++ [OutEvent.textFinal resp.speech_text resp.board_actions,
            OutEvent.audioBytes a]
        ++ ums_title_events s resp t
        ++ [OutEvent.checkpointEv (s.step_id + 1) (truncate50 text)] ∧
    (user_message_body s text ⟨.ok resp, some a, t⟩).2.2 = none := by
  by_cases hp : s.status = SessionStatus.PAUSED
  · have hst : ¬s.status = SessionStatus.TEACHING := by rw [hp]; decide
    simp only [user_message_body, ums_difficulty, ums_title_events, hq, hp, hst,
      LearnSession.wait_for_answer, LearnSession.add_history,
      LearnSession.continue_teaching, LearnSession.next_step, LearnSession.set_checkpoint,
      persist_foldl_status, persist_foldl_custom_title, persist_foldl_step_id,
      pause_custom_title, pause_step_id]
    cases htd : title_decision s.custom_title resp.quiz t <;>
      simp [htd, persist_foldl_status, persist_foldl_custom_title, persist_foldl_step_id,
      pause_custom_title, pause_step_id]
  · by_cases hst : s.status = SessionStatus.TEACHING
    · simp only [user_message_body, ums_difficulty, ums_title_events, hq, hp, hst,
        LearnSession.wait_for_answer, LearnSession.add_history,
        LearnSession.continue_teaching, LearnSession.next_step, LearnSession.set_checkpoint,
        persist_foldl_status, persist_foldl_custom_title, persist_foldl_step_id,
      pause_custom_title, pause_step_id]
      cases htd : title_decision s.custom_title resp.quiz t <;>
        simp [htd, persist_foldl_status, persist_foldl_custom_title, persist_foldl_step_id,
      pause_custom_title, pause_step_id]
    · simp only [user_message_body, ums_difficulty, ums_title_events, hq, hp, hst,
        LearnSession.wait_for_answer, LearnSession.add_history,
        LearnSession.continue_teaching, LearnSession.next_step, LearnSession.set_checkpoint,
        persist_foldl_status, persist_foldl_custom_title, persist_foldl_step_id,
      pause_custom_title, pause_step_id]
      cases htd : title_decision s.custom_title resp.quiz t <;>
        simp [htd, persist_foldl_status, persist_foldl_custom_title, persist_foldl_step_id,
      pause_custom_title, pause_step_id]

/-- Witness for C3 on a concrete turn (TEACHING session, three-word speech,
one board action, synthesized audio present). -/
theorem user_message_emission_order_witness :
    (user_message_body teachingSession "explain X"
        ⟨.ok demoResponse, some demoAudio, none⟩).2.1 =
      [OutEvent.statusEv .ANSWERING (ums_difficulty teachingSession),
       OutEvent.statusEv .TEACHING (ums_difficulty teachingSession)]
        ++ (pySplitWhitespace demoResponse.speech_text).map
            (fun w => OutEvent.textDelta (w ++ " "))
        ++ demoResponse.board_actions.map OutEvent.boardActionEv
        ++ [OutEvent.textFinal demoResponse.speech_text demoResponse.board_actions,
            OutEvent.audioBytes demoAudio]
        ++ ums_title_events teachingSession demoResponse none
        ++ [OutEvent.checkpointEv (teachingSession.step_id + 1) (truncate50 "explain X")] ∧
    (user_message_body teachingSession "explain X"
        ⟨.ok demoResponse, some demoAudio, none⟩).2.2 = none :=
  user_message_emission_order teachingSession "explain X" demoResponse demoAudio none
    (by decide)

/-- C4 amended: an exception raised inside `_handle_websocket_event` is caught
there, converted into an INTERNAL_ERROR event appended to the turn's events,
and the receive loop goes on with the remaining messages; but an exception
raised while decoding/validating an inbound message reaches the handler
OUTSIDE the `while` loop, which emits one INTERNAL_ERROR event and terminates
the loop, leaving the remaining messages unprocessed. -/
theorem ws_loop_error_handling_amended (s : LearnSession) (ev : InEvent)
    (rest : List InMsg) (e : PyErr) :
    (∀ (s2 : LearnSession) (evs : List OutEvent) (err : PyErr),
      handle_event_body s ev = (s2, evs, some err) →
        handle_websocket_event s ev =
          (s2, evs ++ [OutEvent.errorEv "INTERNAL_ERROR" "Error handling WebSocket event"]) ∧
        ws_loop s (.textMsg (.ok ev) :: rest) =
          ((ws_loop s2 rest).1,
           (evs ++ [OutEvent.errorEv "INTERNAL_ERROR" "Error handling WebSocket event"])
             ++ (ws_loop s2 rest).2)) ∧
    ws_loop s (.textMsg (.error e) :: rest) =
      (s, [OutEvent.errorEv "INTERNAL_ERROR" "WebSocket error"]) := by
  constructor
  · intro s2 evs err h
    have hw : handle_websocket_event s ev =
        (s2, evs ++ [OutEvent.errorEv "INTERNAL_ERROR" "Error handling WebSocket event"]) := by
      simp only [handle_websocket_event, h]
    exact ⟨hw, by simp only [ws_loop, hw]⟩
  · rfl

/-- Witness for C4 amended: a RESUME event on a TEACHING session makes
`session.resume()` raise; the handler converts it into an INTERNAL_ERROR event
and the loop would continue. -/
theorem ws_loop_error_handling_amended_witness :
    handle_websocket_event teachingSession .resumeEvent =
      (teachingSession,
       [OutEvent.errorEv "INTERNAL_ERROR" "Error handling WebSocket event"]) ∧
    ws_loop teachingSession [.textMsg (.ok .resumeEvent)] =
      (teachingSession,
       [OutEvent.errorEv "INTERNAL_ERROR" "Error handling WebSocket event"]) :=
  (ws_loop_error_handling_amended teachingSession .resumeEvent []
      (.valueError "x")).1
    teachingSession [] (.valueError "Cannot resume from state") rfl

/-- Counterexample to C4 as stated: with an undecodable first message, the
loop emits one INTERNAL_ERROR event and stops; the following valid INTERRUPT
message is never processed (its pause would have raised the interruption
count), so a per-message exception DOES terminate the connection loop when it
is raised outside `_handle_websocket_event`. -/
theorem ws_loop_decode_error_stops_loop :
    ws_loop teachingSession badDecodeMsgs =
      (teachingSession, [OutEvent.errorEv "INTERNAL_ERROR" "WebSocket error"]) ∧
    (handle_websocket_event teachingSession (.interrupt none)).1.interruption_count =
      teachingSession.interruption_count + 1 ∧
    (ws_loop teachingSession badDecodeMsgs).1.interruption_count =
      teachingSession.interruption_count :=
  ⟨rfl, rfl, rfl⟩

/-- C1 (code-bug evidence): the raw response `BOARD: [{"kind": 5}]` has its
board region decoded by `json.loads` into `[{"kind": 5}]`; the action loop
then evaluates `kind_str.upper()` on the integer 5, raising an
`AttributeError` that neither the per-action `except (ValueError, KeyError)`
nor the outer `except (json.JSONDecodeError, ValueError)` catches, so
`_parse_response` raises instead of returning a (speech, actions) pair. -/
theorem parse_response_uncaught_attribute_error :
    json_loads "[\x7b\"kind\": 5\x7d]" = .ok (.jarr [.jobj [("kind", .jnum 5)]]) ∧
    parse_response_actions 100 (json_loads "[\x7b\"kind\": 5\x7d]") =
      .error (.attributeError "object has no attribute upper") :=
  ⟨rfl, rfl⟩

/-- Witness for C9 amended: "ok" sticks to french; five distinct English
stop-words flip the language to english despite the french context. -/
theorem detect_language_stickiness_amended_witness :
    detect_language "ok" (some "french") = "french" ∧
    detect_language "what is the correct answer" (some "french") = "english" :=
  ⟨(detect_language_stickiness_amended "ok" (by decide) (by decide)).1 (by decide),
   (detect_language_stickiness_amended "what is the correct answer" (by decide)
      (by decide)).2 (by decide)⟩

/-- Counterexample to C9 as stated: a text with 3 distinct English stop-words
(and no language scoring higher) still returns "arabic" when it contains an
Arabic-range character, because the script check precedes the scoring. -/
theorem english_stops_with_arabic_char :
    count_matches eng_stops (clean_tokens "the is to مرحبا") = 3 ∧
    count_matches fr_stops (clean_tokens "the is to مرحبا") = 0 ∧
    count_matches es_stops (clean_tokens "the is to مرحبا") = 0 ∧
    count_matches ar_stops (clean_tokens "the is to مرحبا") = 1 ∧
    detect_language "the is to مرحبا" (some "french") = "arabic" := by
  refine ⟨by decide, by decide, by decide, by decide, by decide⟩

/-- C10 amended: in automatic mode, K ≥ 1 speech frames followed by M ≥ 10
silence frames trigger exactly one transcription, whose input is the K speech
frames plus the first 10 silence frames (the code appends silent frames to the
recording while counting them); afterwards `is_recording` is false and a later
speech frame starts a fresh one-frame recording buffer. -/
theorem voice_pipeline_amended (ks ms : List Frame)
    (hk : ∀ f ∈ ks, f.vadSpeech = true) (hm : ∀ f ∈ ms, f.vadSpeech = false)
    (hne : ks ≠ []) (hm10 : 10 ≤ ms.length) :
    run_frames vmInit (ks ++ ms) =
      ({ vmInit with is_recording := false, silence_frames := 10,
                     recorded_audio := ks ++ ms.take 10 },
       [ks ++ ms.take 10]) ∧
    (∀ f : Frame, f.vadSpeech = true →
      add_frame (run_frames vmInit (ks ++ ms)).1 f =
        ({ vmInit with is_recording := true, recorded_audio := [f] }, none)) := by
  have hmain : run_frames vmInit (ks ++ ms) =
      ({ vmInit with is_recording := false, silence_frames := 10,
                     recorded_audio := ks ++ ms.take 10 },
       [ks ++ ms.take 10]) := by
    rw [run_frames_append ks ms vmInit, run_frames_fresh_speech ks hk hne]
    dsimp only [vmInit]
    rw [run_frames_silence_countdown ms ⟨true, 0, ks, true, true⟩ rfl rfl rfl
        (by norm_num) (by show 10 ≤ 0 + ms.length; omega) hm]
    simp [vmInit]
  refine ⟨hmain, fun f hf => ?_⟩
  rw [hmain]
  simp [add_frame, vmInit, hf]

/-- Witness for C10 amended at a concrete 2-speech/10-silence frame feed. -/
theorem voice_pipeline_amended_witness :
    run_frames vmInit (exSpeech ++ exSilence) =
      ({ vmInit with is_recording := false, silence_frames := 10,
                     recorded_audio := exSpeech ++ exSilence.take 10 },
       [exSpeech ++ exSilence.take 10]) :=
  (voice_pipeline_amended exSpeech exSilence (by decide) (by decide)
    (by decide) (by decide)).1

/-- Counterexample to C10 as stated: after 2 speech frames and 10 silence
frames the single transcription call covers all 12 recorded frames, not only
the 2 speech frames. -/
theorem voice_pipeline_transcribes_silence_too :
    (run_frames vmInit (exSpeech ++ exSilence)).2 = [exSpeech ++ exSilence] ∧
    exSpeech.length = 2 ∧ (exSpeech ++ exSilence).length = 12 ∧
    (run_frames vmInit (exSpeech ++ exSilence)).2 ≠ [exSpeech] ∧
    (run_frames vmInit (exSpeech ++ exSilence)).1.is_recording = false := by
  refine ⟨by decide, by decide, by decide, by decide, by decide⟩

/-- Counterexample to C3 as stated (it quantifies over every user-message
turn): a `[QUIZ_RESULT:` turn emits an extra status broadcast (learn.py lines
713-729) between the TEACHING status — event (2) — and the first text delta —
event (3) — so the six listed events are not emitted in the claimed strict
order; a turn whose `generate_teacher_response` raises emits only (1)-(2)
before the error handling; and a turn whose audio synthesis returned None
omits the audio payload (6) altogether. -/
theorem quiz_result_turn_breaks_strict_order :
    (user_message_body teachingSession "[QUIZ_RESULT: CORRECT]"
        ⟨.ok demoResponse, some demoAudio, none⟩).2.1 =
      [OutEvent.statusEv .ANSWERING 2, OutEvent.statusEv .TEACHING 2,
       OutEvent.statusQuizResult .ANSWERING 2,
       OutEvent.textDelta "hello ", OutEvent.textDelta "there ", OutEvent.textDelta "world ",
       OutEvent.boardActionEv { kind := .WRITE_TITLE, payload := .jobj [("text", .jstr "X")] },
       OutEvent.textFinal "hello there world"
         [{ kind := .WRITE_TITLE, payload := .jobj [("text", .jstr "X")] }],
       OutEvent.audioBytes demoAudio,
       OutEvent.checkpointEv 1 "[QUIZ_RESULT: CORRECT]"] ∧
    (user_message_body teachingSession "explain X"
        ⟨.error (.attributeError "parse failure"), some demoAudio, none⟩).2.1 =
      [OutEvent.statusEv .ANSWERING 2, OutEvent.statusEv .TEACHING 2] ∧
    (user_message_body teachingSession "explain X"
        ⟨.ok demoResponse, none, none⟩).2.1 =
      [OutEvent.statusEv .ANSWERING 2, OutEvent.statusEv .TEACHING 2,
       OutEvent.textDelta "hello ", OutEvent.textDelta "there ", OutEvent.textDelta "world ",
       OutEvent.boardActionEv { kind := .WRITE_TITLE, payload := .jobj [("text", .jstr "X")] },
       OutEvent.textFinal "hello there world"
         [{ kind := .WRITE_TITLE, payload := .jobj [("text", .jstr "X")] }],
       OutEvent.checkpointEv 1 "explain X"] :=
  ⟨rfl, rfl, rfl⟩
